import Mathlib

/-!
Verification of `PDF_OCR_Needs_Analyzer` (files `PDF_Ocr_Analyzer.py` and
`TextQualityCheck.py`) against its specification.

Modelling conventions (shallow embedding):
* Python floats are modelled by `ℚ`.  All numbers the program manipulates
  (page counts, character counts, byte sizes, pixel counts and the decimal
  threshold literals 0.3, 0.02, 5, 50, 0.5) are exactly representable, so
  every comparison the decision engine performs has the same outcome over
  `ℚ` as over IEEE doubles.
* `page.get_text()` results are modelled as the list of extracted page
  strings; a page whose extraction raises is `none` (the source has no
  per-page guard, so the exception propagates out of the loop).
* `fitz.open` failure (missing, unreadable or corrupt file) is modelled by
  the document's page list being absent (`none`).
* a rasterized page is a grayscale pixel matrix; the RGB→gray conversion of
  `cv2.cvtColor` is a per-pixel luminance map and is modelled by taking the
  matrix to already hold the gray values.  A page whose image processing
  raises inside `calculate_text_density` is `none`; a raising
  `convert_from_path` is the whole list being absent.
* Python functions that catch an exception and return a value are total
  functions on these `Option`-shaped inputs; a Python function that lets an
  exception escape returns `Option.none`.
-/

namespace PdfOcr

/-- The result dictionary built by `analyze_pdf_text_layer`
(`PDF_Ocr_Analyzer.py` lines 53-60). -/
structure TextLayerMetrics where
  has_text_layer : Bool
  total_pages : Nat
  pages_with_text : Nat
  total_text_length : Nat
  text_pages_ratio : ℚ
  avg_text_per_page : ℚ
deriving DecidableEq, Repr

/-- The dictionary returned by `get_file_metrics`
(`PDF_Ocr_Analyzer.py` lines 186-191). -/
structure FileMetrics where
  file_size_mb : ℚ
  filename : String
deriving DecidableEq, Repr

/-- Python's `str.strip()`: drop leading and trailing whitespace.  (Lean's
own `String.trim` is defined by well-founded recursion on substring
positions and does not reduce in the kernel, so the model computes the same
function on the character list.) -/
def pyStrip (s : String) : String :=
  String.mk (((s.data.dropWhile Char.isWhitespace).reverse.dropWhile
    Char.isWhitespace).reverse)

/-- Python truthiness of `text.strip()`: the page counts as having text iff
the stripped extracted string is non-empty (`if text.strip():`, line 68). -/
def pageHasText (text : String) : Bool := decide (pyStrip text ≠ "")

/-- One iteration of the page loop of `analyze_pdf_text_layer`
(`PDF_Ocr_Analyzer.py` lines 63-71): on a page with non-blank text, mark
the text layer present, bump the page counter and add the trimmed length. -/
def scanPage (r : TextLayerMetrics) (text : String) : TextLayerMetrics :=
  if pyStrip text ≠ "" then
    { r with has_text_layer := true,
             pages_with_text := r.pages_with_text + 1,
             total_text_length := r.total_text_length + (pyStrip text).length }
  else r

/-- `analyze_pdf_text_layer` (`PDF_Ocr_Analyzer.py` lines 31-82) on a
document that opened and whose every page extraction succeeded: the
argument is the list of `page.get_text()` results in page order. -/
def analyze_pdf_text_layer (texts : List String) : TextLayerMetrics :=
  let results : TextLayerMetrics :=
    { has_text_layer := false
      total_pages := texts.length
      pages_with_text := 0
      total_text_length := 0
      text_pages_ratio := 0
      avg_text_per_page := 0 }
  let scanned := texts.foldl scanPage results
  if 0 < scanned.total_pages then
    { scanned with
        text_pages_ratio :=
          (scanned.pages_with_text : ℚ) / (scanned.total_pages : ℚ),
        avg_text_per_page :=
          (scanned.total_text_length : ℚ) / (max scanned.pages_with_text 1 : ℕ) }
  else scanned

/-- The page loop extracts every page in order; the first page whose
`page.get_text()` raises (modelled `none`) aborts the whole traversal. -/
def extractAllPages : List (Option String) → Option (List String)
  | [] => some []
  | none :: _ => none
  | some t :: rest => (extractAllPages rest).map fun ts => t :: ts

/-- `analyze_pdf_text_layer` as actually run: the loop has no per-page
guard, so a raising `page.get_text()` aborts the function (the exception
escapes to the caller, modelled by `none`). -/
def analyze_pdf_text_layer_run (pages : List (Option String)) :
    Option TextLayerMetrics :=
  (extractAllPages pages).map analyze_pdf_text_layer

/-- `needs_ocr_analysis` (`PDF_Ocr_Analyzer.py` lines 193-233): the list
`rules` of the five boolean heuristics, combined with `any(rules)`. -/
def needs_ocr_analysis (text_analysis : TextLayerMetrics)
    (visual_analysis : ℚ) (file_metrics : FileMetrics) : Bool :=
  let rules : List Bool :=
    [ -- Правило 1: Нет текстового слоя вообще
      !text_analysis.has_text_layer,
      -- Правило 2: Меньше 30% страниц содержат текст
      decide (text_analysis.text_pages_ratio < 0.3),
      -- Правило 3: Низкая плотность текста (меньше 2%)
      decide (visual_analysis < 0.02),
      -- Правило 4: Большой файл но мало текста (возможно сканы)
      decide (file_metrics.file_size_mb > 5) &&
        decide (text_analysis.avg_text_per_page < 50),
      -- Правило 5: Много страниц но мало текста
      decide (text_analysis.total_pages > 10) &&
        decide (text_analysis.text_pages_ratio < 0.5) ]
  rules.any id

/-- A rasterized page as `calculate_text_density` sees it after the
grayscale conversion: a matrix of gray pixel values (rows of equal length
in every image `pdf2image` actually produces). -/
structure Image where
  rows : List (List Nat)
deriving DecidableEq, Repr

/-- `binary.shape[0]`: the number of pixel rows. -/
def Image.height (img : Image) : Nat := img.rows.length

/-- `binary.shape[1]`: the number of pixel columns. -/
def Image.width (img : Image) : Nat := (img.rows.headD []).length

/-- Foreground ("ink") pixel count after `cv2.threshold(gray, 127, 255,
THRESH_BINARY_INV)`: the pixels mapped to 255 are exactly those with gray
value ≤ 127, and `np.sum(binary == 255)` counts them. -/
def Image.blackPixels (img : Image) : Nat :=
  (img.rows.map fun row => row.countP fun px => decide (px ≤ 127)).sum

/-- `calculate_text_density` (`PDF_Ocr_Analyzer.py` lines 84-127): the
foreground-pixel fraction of the binarized page, capped at 1.0 by
`min(text_density, 1.0)`; any exception in the image processing is caught
and yields 0.0 (argument `none`). -/
def calculate_text_density (image : Option Image) : ℚ :=
  match image with
  | none => 0
  | some img =>
      let black_pixels := img.blackPixels
      let total_pixels := img.height * img.width
      min ((black_pixels : ℚ) / (total_pixels : ℚ)) 1

/-- `analyze_visual_text_density` (`PDF_Ocr_Analyzer.py` lines 129-173).
The argument models the outcome of `convert_from_path` (already limited to
the first `min(sample_pages, 10)` pages): `none` if the rasterization call
raised — caught, returning 0.0; otherwise the page images, each `none` if
its own processing inside `calculate_text_density` raises.  An empty image
list returns 0.0 (`if not images`); otherwise `np.mean` of the per-page
densities. -/
def analyze_visual_text_density (raster : Option (List (Option Image))) : ℚ :=
  match raster with
  | none => 0
  | some images =>
      if images.isEmpty then 0
      else
        let densities := images.map calculate_text_density
        if densities.isEmpty then 0
        else densities.sum / (densities.length : ℚ)

/-- Rule 1 of the decision engine: no text layer at all. -/
def rule1 (t : TextLayerMetrics) : Prop := t.has_text_layer = false

/-- Rule 2: fewer than 30% of the pages carry text. -/
def rule2 (t : TextLayerMetrics) : Prop := t.text_pages_ratio < 0.3

/-- Rule 3: visual ink density below 2%. -/
def rule3 (d : ℚ) : Prop := d < 0.02

/-- Rule 4: file above 5 MB with under 50 characters per text page. -/
def rule4 (t : TextLayerMetrics) (f : FileMetrics) : Prop :=
  f.file_size_mb > 5 ∧ t.avg_text_per_page < 50

/-- Rule 5: more than 10 pages with under half of them carrying text. -/
def rule5 (t : TextLayerMetrics) : Prop :=
  t.total_pages > 10 ∧ t.text_pages_ratio < 0.5


/-- What the program observes of one PDF path: the file name, the byte size
reported by `os.stat`, the outcome of `fitz.open` + per-page
`page.get_text()` (`none` when opening raises: the file is missing,
unreadable or corrupt), and the outcome of `convert_from_path`. -/
structure PdfFile where
  filename : String
  sizeBytes : Nat
  pages : Option (List (Option String))
  raster : Option (List (Option Image))

/-- `get_file_metrics` (`PDF_Ocr_Analyzer.py` lines 175-191):
`st_size / (1024 * 1024)` and the basename. -/
def get_file_metrics (f : PdfFile) : FileMetrics :=
  { file_size_mb := (f.sizeBytes : ℚ) / (1024 * 1024)
    filename := f.filename }

/-- The result dictionary assembled by `analyze_pdf_ocr_need`
(`PDF_Ocr_Analyzer.py` lines 278-286); the `error` key is only present in
the dictionary built by `analyze_pdf_folder`'s `except` branch (line 376). -/
structure OcrResult where
  filename : String
  has_text_layer : Bool
  text_pages_ratio : ℚ
  avg_text_density : ℚ
  ocr_required : Bool
  file_size_mb : ℚ
  total_pages : Nat
  error : Option String
deriving DecidableEq, Repr

/-- `analyze_pdf_ocr_need` (`PDF_Ocr_Analyzer.py` lines 235-297).  Its
whole body sits in one `try`: if `os.stat`/`fitz.open` raises (modelled
`f.pages = none`) or a page extraction raises, the `except` at line 294
catches it and the function returns `None`.  When Poppler is not on the
search path, the visual analysis is skipped and density is 0.0
(lines 266-272). -/
def analyze_pdf_ocr_need (popplerAvailable : Bool) (f : PdfFile) :
    Option OcrResult :=
  match f.pages with
  | none => none
  | some pages =>
      match analyze_pdf_text_layer_run pages with
      | none => none
      | some text_analysis =>
          let file_metrics := get_file_metrics f
          let visual_density :=
            if popplerAvailable then analyze_visual_text_density f.raster
            else 0
          let ocr_required :=
            needs_ocr_analysis text_analysis visual_density file_metrics
          some
            { filename := file_metrics.filename
              has_text_layer := text_analysis.has_text_layer
              text_pages_ratio := text_analysis.text_pages_ratio
              avg_text_density := visual_density
              ocr_required := ocr_required
              file_size_mb := file_metrics.file_size_mb
              total_pages := text_analysis.total_pages
              error := none }

/-- The dictionary `analyze_pdf_folder`'s `except` branch would append
(`PDF_Ocr_Analyzer.py` lines 368-377).  That branch is unreachable:
`analyze_pdf_ocr_need` catches every exception itself and returns `None`,
so no exception ever reaches the `except` at line 365. -/
def error_result (f : PdfFile) (e : String) : OcrResult :=
  { filename := f.filename
    has_text_layer := false
    text_pages_ratio := 0
    avg_text_density := 0
    ocr_required := true
    file_size_mb := (f.sizeBytes : ℚ) / (1024 * 1024)
    total_pages := 0
    error := some e }

/-- `analyze_pdf_folder`'s per-file loop (`PDF_Ocr_Analyzer.py` lines
356-379): each file's result is appended when `analyze_pdf_ocr_need`
returns a dictionary and silently dropped when it returns `None`
(`if result:`); `error_result` is never appended, see its comment. -/
def analyze_pdf_folder (popplerAvailable : Bool) :
    List PdfFile → List OcrResult
  | [] => []
  | f :: rest =>
      match analyze_pdf_ocr_need popplerAvailable f with
      | some result => result :: analyze_pdf_folder popplerAvailable rest
      | none => analyze_pdf_folder popplerAvailable rest

/-- One CSV cell as `csv.DictWriter` receives it.  The writer stringifies
the value; the claims under check concern only the row/field structure, so
the cell keeps the typed value.  A field missing from a result dictionary
would be written as the blank `CsvCell.str ""` (the `result.get(field, '')`
default at line 446). -/
inductive CsvCell where
  | str (s : String)
  | bool (b : Bool)
  | rat (q : ℚ)
deriving DecidableEq, Repr

/-- The fixed CSV header (`PDF_Ocr_Analyzer.py` line 435). -/
def fieldnames : List CsvCell :=
  [.str "filename", .str "has_text_layer",
   .str "avg_text_density", .str "ocr_required"]

/-- The row written for one result (`PDF_Ocr_Analyzer.py` lines 444-447):
`{field: result.get(field, '') for field in fieldnames}`.  Every result
dictionary the program builds — the success dictionary and the unreachable
`error_result` alike — carries all four fields, so the `''` default never
fires and each cell holds the result's value. -/
def csvRow (r : OcrResult) : List CsvCell :=
  [.str r.filename, .bool r.has_text_layer,
   .rat r.avg_text_density, .bool r.ocr_required]

/-- `save_to_csv` (`PDF_Ocr_Analyzer.py` lines 422-452) as the rows it
writes: `none` when `results` is empty (`if not results: return` — no file
at all), otherwise the header row followed by one row per result. -/
def save_to_csv (results : List OcrResult) : Option (List (List CsvCell)) :=
  if results.isEmpty then none
  else some (fieldnames :: results.map csvRow)


end PdfOcr

namespace TextQualityCheck

open PdfOcr in
/-- `needs_ocr_analysis` as duplicated in `TextQualityCheck.py`
(lines 113-141): the same five boolean rules combined with `any(rules)`. -/
def needs_ocr_analysis (text_analysis : TextLayerMetrics)
    (visual_analysis : ℚ) (file_metrics : FileMetrics) : Bool :=
  let rules : List Bool :=
    [ -- Нет текстового слоя вообще
      !text_analysis.has_text_layer,
      -- Меньше 30% страниц содержат текст
      decide (text_analysis.text_pages_ratio < 0.3),
      -- Низкая плотность текста (меньше 2%)
      decide (visual_analysis < 0.02),
      -- Большой файл но мало текста (возможно сканы)
      decide (file_metrics.file_size_mb > 5) &&
        decide (text_analysis.avg_text_per_page < 50),
      -- Много страниц но мало текста
      decide (text_analysis.total_pages > 10) &&
        decide (text_analysis.text_pages_ratio < 0.5) ]
  rules.any id

end TextQualityCheck

namespace PdfOcr

/-- The decision engine is the disjunction of the five rules. -/
lemma needs_ocr_analysis_iff (t : TextLayerMetrics) (d : ℚ) (f : FileMetrics) :
    needs_ocr_analysis t d f = true ↔
      rule1 t ∨ rule2 t ∨ rule3 d ∨ rule4 t f ∨ rule5 t := by
  simp [needs_ocr_analysis, rule1, rule2, rule3, rule4, rule5,
    List.any_cons, List.any_nil, Bool.or_eq_true, decide_eq_true_eq,
    Bool.and_eq_true, Bool.not_eq_true']

/-- Density 0 triggers rule 3 whatever the other metrics are. -/
lemma needs_ocr_analysis_zero_density (t : TextLayerMetrics) (f : FileMetrics) :
    needs_ocr_analysis t 0 f = true := by
  rw [needs_ocr_analysis_iff]
  refine Or.inr (Or.inr (Or.inl ?_))
  norm_num [rule3]

/-- Closed form of the page loop: the fold marks the text layer present iff
some page has text, counts the pages with non-blank trimmed text and sums
the trimmed lengths (a blank page contributes trimmed length 0). -/
lemma foldl_scanPage (texts : List String) (r : TextLayerMetrics) :
    texts.foldl scanPage r =
      { r with
        has_text_layer := r.has_text_layer || texts.any pageHasText,
        pages_with_text := r.pages_with_text + texts.countP pageHasText,
        total_text_length := r.total_text_length +
          (texts.map fun t => (pyStrip t).length).sum } := by
  induction texts generalizing r with
  | nil => simp
  | cons t rest ih =>
      obtain ⟨h1, tp, pw, ttl, ratio, avg⟩ := r
      by_cases h : pyStrip t ≠ ""
      · simp [List.foldl_cons, scanPage, pageHasText, h, ih,
          TextLayerMetrics.mk.injEq, Bool.or_assoc]
        constructor
        · omega
        · omega
      · simp only [ne_eq, not_not] at h
        simp [List.foldl_cons, scanPage, pageHasText, h, ih,
          TextLayerMetrics.mk.injEq]

/-- Full characterisation of `analyze_pdf_text_layer` on a successfully
extracted document. -/
lemma analyze_pdf_text_layer_eq (texts : List String) :
    analyze_pdf_text_layer texts =
      if 0 < texts.length then
        { has_text_layer := texts.any pageHasText
          total_pages := texts.length
          pages_with_text := texts.countP pageHasText
          total_text_length := (texts.map fun t => (pyStrip t).length).sum
          text_pages_ratio := (texts.countP pageHasText : ℚ) / (texts.length : ℚ)
          avg_text_per_page := ((texts.map fun t => (pyStrip t).length).sum : ℚ) /
            (max (texts.countP pageHasText) 1 : ℕ) }
      else
        { has_text_layer := texts.any pageHasText
          total_pages := texts.length
          pages_with_text := texts.countP pageHasText
          total_text_length := (texts.map fun t => (pyStrip t).length).sum
          text_pages_ratio := 0
          avg_text_per_page := 0 } := by
  rw [analyze_pdf_text_layer, foldl_scanPage]
  by_cases h : 0 < texts.length <;>
    simp [h, TextLayerMetrics.mk.injEq, Function.comp_def]

/-- A page whose extraction raises aborts the page traversal wherever it
sits in the list. -/
lemma extractAllPages_eq_none (pages : List (Option String))
    (h : none ∈ pages) : extractAllPages pages = none := by
  induction pages with
  | nil => simp at h
  | cons p rest ih =>
      cases p with
      | none => rfl
      | some t =>
          have hr : none ∈ rest := by
            rcases List.mem_cons.mp h with h' | h'
            · simp at h'
            · exact h'
          simp [extractAllPages, ih hr]

/-- A list of rationals that all lie in [0,1] has sum between 0 and its
length. -/
lemma list_sum_le_length_of_le_one (l : List ℚ)
    (h : ∀ x ∈ l, 0 ≤ x ∧ x ≤ 1) : 0 ≤ l.sum ∧ l.sum ≤ (l.length : ℚ) := by
  induction l with
  | nil => simp
  | cons a rest ih =>
      obtain ⟨ha0, ha1⟩ := h a (by simp)
      have hre := ih fun x hx => h x (by simp [hx])
      simp only [List.sum_cons, List.length_cons]
      constructor
      · exact add_nonneg ha0 hre.1
      · push_cast
        linarith [hre.2]

/-- Every per-page density `calculate_text_density` produces lies in
[0,1]: the division of counts is nonnegative and the result is capped
at 1. -/
lemma calculate_text_density_mem_unit (img : Option Image) :
    0 ≤ calculate_text_density img ∧ calculate_text_density img ≤ 1 := by
  cases img with
  | none => norm_num [calculate_text_density]
  | some i =>
      constructor
      · exact le_min (div_nonneg (by positivity) (by positivity)) zero_le_one
      · exact min_le_right _ _

/-- Concrete run of the orchestrator, backend unavailable, on a one-page
1 MB document whose single page extracts the text "x". -/
lemma analyze_pdf_ocr_need_singleton (nm : String) :
    analyze_pdf_ocr_need false ⟨nm, 1048576, some [some "x"], none⟩ =
      some ⟨nm, true, 1, 0, true, 1, 1, none⟩ := by
  have hx : pageHasText "x" = true := by decide
  have hlen : (pyStrip "x").length = 1 := by decide
  have h1 : analyze_pdf_text_layer ["x"] = ⟨true, 1, 1, 1, 1, 1⟩ := by
    rw [analyze_pdf_text_layer_eq]
    simp [hx, hlen, TextLayerMetrics.mk.injEq]
  simp only [analyze_pdf_ocr_need, analyze_pdf_text_layer_run,
    extractAllPages, Option.map, h1, get_file_metrics, Bool.false_eq_true,
    if_false, Option.some.injEq]
  norm_num [OcrResult.mk.injEq, needs_ocr_analysis]

/-- The folder loop keeps exactly the files whose per-document analysis
returned a result. -/
lemma analyze_pdf_folder_length (poppler : Bool) (files : List PdfFile) :
    (analyze_pdf_folder poppler files).length =
      files.countP fun f => (analyze_pdf_ocr_need poppler f).isSome := by
  induction files with
  | nil => rfl
  | cons f rest ih =>
      cases hf : analyze_pdf_ocr_need poppler f with
      | none => simp [analyze_pdf_folder, hf, List.countP_cons, ih]
      | some r => simp [analyze_pdf_folder, hf, List.countP_cons, ih]

/-- C1: `needs_ocr_analysis` returns true iff at least one of the five
rules holds — (1) no text layer, (2) text-page ratio below 0.3, (3) visual
density below 0.02, (4) file over 5 MB with average text per page below 50,
(5) more than 10 pages with text-page ratio below 0.5 — and on Scenario C
(20 pages, 18 with text, ratio 0.9, density 0.15, 2 MB, 300 characters per
page) it returns false. -/
theorem needs_ocr_analysis_five_rules :
    (∀ (t : TextLayerMetrics) (d : ℚ) (f : FileMetrics),
      needs_ocr_analysis t d f = true ↔
        t.has_text_layer = false ∨ t.text_pages_ratio < 0.3 ∨ d < 0.02 ∨
        (f.file_size_mb > 5 ∧ t.avg_text_per_page < 50) ∨
        (t.total_pages > 10 ∧ t.text_pages_ratio < 0.5)) ∧
    needs_ocr_analysis
      { has_text_layer := true, total_pages := 20, pages_with_text := 18,
        total_text_length := 5400, text_pages_ratio := 0.9,
        avg_text_per_page := 300 }
      0.15 { file_size_mb := 2, filename := "scenario_c.pdf" } = false := by
  constructor
  · intro t d f
    rw [needs_ocr_analysis_iff]
    simp only [rule1, rule2, rule3, rule4, rule5]
  · norm_num [needs_ocr_analysis]

/-- C9: the decision engine is duplicated identically in the two source
files — `needs_ocr_analysis` of `PDF_Ocr_Analyzer.py` and
`needs_ocr_analysis` of `TextQualityCheck.py` agree on every input. -/
theorem needs_ocr_analysis_duplicate_agreement :
    ∀ (t : TextLayerMetrics) (d : ℚ) (f : FileMetrics),
      needs_ocr_analysis t d f = TextQualityCheck.needs_ocr_analysis t d f :=
  fun _ _ _ => rfl

/-- C10: the decision is antitone in the visual density — lowering the
density estimate never flips the verdict from OCR-required to
not-required. -/
theorem needs_ocr_analysis_antitone_in_density
    (t : TextLayerMetrics) (f : FileMetrics) (d1 d2 : ℚ)
    (hle : d1 ≤ d2) (h : needs_ocr_analysis t d2 f = true) :
    needs_ocr_analysis t d1 f = true := by
  rw [needs_ocr_analysis_iff] at h ⊢
  rcases h with h | h | h | h | h
  · exact Or.inl h
  · exact Or.inr (Or.inl h)
  · exact Or.inr (Or.inr (Or.inl (lt_of_le_of_lt hle h)))
  · exact Or.inr (Or.inr (Or.inr (Or.inl h)))
  · exact Or.inr (Or.inr (Or.inr (Or.inr h)))

/-- C4: when the rasterization backend is unavailable the orchestrator uses
visual density 0.0, density 0 satisfies rule 3 for every text-layer metrics
and file metrics input — Scenario A's metrics included — and consequently
every result the orchestrator produces without the backend has
`ocr_required = true`. -/
theorem backend_unavailable_forces_ocr :
    (∀ (t : TextLayerMetrics) (f : FileMetrics),
      needs_ocr_analysis t 0 f = true) ∧
    (∀ (f : PdfFile) (r : OcrResult),
      analyze_pdf_ocr_need false f = some r →
      r.avg_text_density = 0 ∧ r.ocr_required = true) ∧
    needs_ocr_analysis
      { has_text_layer := true, total_pages := 10, pages_with_text := 10,
        total_text_length := 5000, text_pages_ratio := 1,
        avg_text_per_page := 500 } 0
      { file_size_mb := 1, filename := "scenario_a.pdf" } = true := by
  refine ⟨needs_ocr_analysis_zero_density, ?_,
    needs_ocr_analysis_zero_density _ _⟩
  intro f r h
  cases hp : f.pages with
  | none => simp [analyze_pdf_ocr_need, hp] at h
  | some pages =>
      cases hr : analyze_pdf_text_layer_run pages with
      | none => simp [analyze_pdf_ocr_need, hp, hr] at h
      | some ta =>
          simp only [analyze_pdf_ocr_need, hp, hr, Bool.false_eq_true,
            if_false, Option.some.injEq] at h
          subst h
          exact ⟨rfl, needs_ocr_analysis_zero_density _ _⟩

/-- Witness for C4: a one-page document with text, analysed with the
backend unavailable, yields density 0 and `ocr_required = true`. -/
theorem backend_unavailable_forces_ocr_witness :
    analyze_pdf_ocr_need false ⟨"w.pdf", 1048576, some [some "x"], none⟩ =
      some ⟨"w.pdf", true, 1, 0, true, 1, 1, none⟩ ∧
    (⟨"w.pdf", true, 1, 0, true, 1, 1, none⟩ : OcrResult).avg_text_density = 0 ∧
    (⟨"w.pdf", true, 1, 0, true, 1, 1, none⟩ : OcrResult).ocr_required = true := by
  have h2 := analyze_pdf_ocr_need_singleton "w.pdf"
  exact ⟨h2,
    (backend_unavailable_forces_ocr.2.1 _ _ h2).1,
    (backend_unavailable_forces_ocr.2.1 _ _ h2).2⟩

/-- C6: every metrics record `analyze_pdf_text_layer` returns has its
ratio in [0,1], at most as many text pages as pages, text-layer flag
equivalent to a positive text-page count, the exact average
`total_text_length / max(pages_with_text, 1)`, and ratio and average both
0 on a zero-page document. -/
theorem text_layer_metrics_invariants (pages : List (Option String))
    (m : TextLayerMetrics) (h : analyze_pdf_text_layer_run pages = some m) :
    (0 ≤ m.text_pages_ratio ∧ m.text_pages_ratio ≤ 1) ∧
    m.pages_with_text ≤ m.total_pages ∧
    (m.has_text_layer = true ↔ 0 < m.pages_with_text) ∧
    m.avg_text_per_page =
      (m.total_text_length : ℚ) / ((max m.pages_with_text 1 : ℕ) : ℚ) ∧
    (m.total_pages = 0 → m.text_pages_ratio = 0 ∧ m.avg_text_per_page = 0) := by
  obtain ⟨texts, -, rfl⟩ :
      ∃ texts, extractAllPages pages = some texts ∧
        analyze_pdf_text_layer texts = m := by
    unfold analyze_pdf_text_layer_run at h
    rcases hx : extractAllPages pages with - | texts
    · rw [hx] at h; cases h
    · rw [hx] at h; exact ⟨texts, rfl, by simpa using h⟩
  rw [analyze_pdf_text_layer_eq]
  by_cases hl : 0 < texts.length
  · simp only [hl, if_true]
    refine ⟨⟨?_, ?_⟩, ?_, ?_, ?_, ?_⟩
    · positivity
    · rw [div_le_one (by exact_mod_cast hl)]
      exact_mod_cast List.countP_le_length _
    · exact List.countP_le_length _
    · simp [List.any_eq_true, List.countP_pos_iff]
    · trivial
    · intro h0
      exfalso
      have hz : texts.length = 0 := h0
      omega
  · have h0 : texts = [] := List.length_eq_zero.mp (by omega)
    subst h0
    norm_num

/-- Witness for C6: the two-page document `["hi", "  "]` (one text page,
one blank page) analysed end to end. -/
theorem text_layer_metrics_invariants_witness :
    analyze_pdf_text_layer_run [some "hi", some "  "] =
      some ⟨true, 2, 1, 2, 1/2, 2⟩ ∧
    ((0 ≤ (⟨true, 2, 1, 2, 1/2, 2⟩ : TextLayerMetrics).text_pages_ratio ∧
      (⟨true, 2, 1, 2, 1/2, 2⟩ : TextLayerMetrics).text_pages_ratio ≤ 1) ∧
    (⟨true, 2, 1, 2, 1/2, 2⟩ : TextLayerMetrics).pages_with_text ≤
      (⟨true, 2, 1, 2, 1/2, 2⟩ : TextLayerMetrics).total_pages ∧
    ((⟨true, 2, 1, 2, 1/2, 2⟩ : TextLayerMetrics).has_text_layer = true ↔
      0 < (⟨true, 2, 1, 2, 1/2, 2⟩ : TextLayerMetrics).pages_with_text) ∧
    (⟨true, 2, 1, 2, 1/2, 2⟩ : TextLayerMetrics).avg_text_per_page =
      ((⟨true, 2, 1, 2, 1/2, 2⟩ : TextLayerMetrics).total_text_length : ℚ) /
      ((max (⟨true, 2, 1, 2, 1/2, 2⟩ : TextLayerMetrics).pages_with_text 1 : ℕ) : ℚ) ∧
    ((⟨true, 2, 1, 2, 1/2, 2⟩ : TextLayerMetrics).total_pages = 0 →
      (⟨true, 2, 1, 2, 1/2, 2⟩ : TextLayerMetrics).text_pages_ratio = 0 ∧
      (⟨true, 2, 1, 2, 1/2, 2⟩ : TextLayerMetrics).avg_text_per_page = 0)) := by
  have hhi : pageHasText "hi" = true := by decide
  have hbl : pageHasText "  " = false := by decide
  have hlhi : (pyStrip "hi").length = 2 := by decide
  have hlbl : (pyStrip "  ").length = 0 := by decide
  have h : analyze_pdf_text_layer_run [some "hi", some "  "] =
      some ⟨true, 2, 1, 2, 1/2, 2⟩ := by
    simp only [analyze_pdf_text_layer_run, extractAllPages, Option.map]
    rw [analyze_pdf_text_layer_eq]
    simp [hhi, hbl, hlhi, hlbl, TextLayerMetrics.mk.injEq]
  exact ⟨h, text_layer_metrics_invariants _ _ h⟩

/-- C5: each of the five rules is individually sufficient — every rule
implies the verdict true, and for each rule there is an input satisfying it
while the other four rules are all false — and the decision engine is
deterministic: identical inputs give identical output. -/
theorem needs_ocr_rules_individually_sufficient :
    (∀ (t : TextLayerMetrics) (d : ℚ) (f : FileMetrics),
      rule1 t → needs_ocr_analysis t d f = true) ∧
    (∀ (t : TextLayerMetrics) (d : ℚ) (f : FileMetrics),
      rule2 t → needs_ocr_analysis t d f = true) ∧
    (∀ (t : TextLayerMetrics) (d : ℚ) (f : FileMetrics),
      rule3 d → needs_ocr_analysis t d f = true) ∧
    (∀ (t : TextLayerMetrics) (d : ℚ) (f : FileMetrics),
      rule4 t f → needs_ocr_analysis t d f = true) ∧
    (∀ (t : TextLayerMetrics) (d : ℚ) (f : FileMetrics),
      rule5 t → needs_ocr_analysis t d f = true) ∧
    (∃ (t : TextLayerMetrics) (d : ℚ) (f : FileMetrics),
      rule1 t ∧ ¬ rule2 t ∧ ¬ rule3 d ∧ ¬ rule4 t f ∧ ¬ rule5 t) ∧
    (∃ (t : TextLayerMetrics) (d : ℚ) (f : FileMetrics),
      ¬ rule1 t ∧ rule2 t ∧ ¬ rule3 d ∧ ¬ rule4 t f ∧ ¬ rule5 t) ∧
    (∃ (t : TextLayerMetrics) (d : ℚ) (f : FileMetrics),
      ¬ rule1 t ∧ ¬ rule2 t ∧ rule3 d ∧ ¬ rule4 t f ∧ ¬ rule5 t) ∧
    (∃ (t : TextLayerMetrics) (d : ℚ) (f : FileMetrics),
      ¬ rule1 t ∧ ¬ rule2 t ∧ ¬ rule3 d ∧ rule4 t f ∧ ¬ rule5 t) ∧
    (∃ (t : TextLayerMetrics) (d : ℚ) (f : FileMetrics),
      ¬ rule1 t ∧ ¬ rule2 t ∧ ¬ rule3 d ∧ ¬ rule4 t f ∧ rule5 t) ∧
    (∀ (t : TextLayerMetrics) (d : ℚ) (f : FileMetrics)
       (t' : TextLayerMetrics) (d' : ℚ) (f' : FileMetrics),
      t = t' → d = d' → f = f' →
      needs_ocr_analysis t d f = needs_ocr_analysis t' d' f') := by
  refine ⟨?_, ?_, ?_, ?_, ?_, ?_, ?_, ?_, ?_, ?_, ?_⟩
  · exact fun t d f h => (needs_ocr_analysis_iff t d f).2 (Or.inl h)
  · exact fun t d f h => (needs_ocr_analysis_iff t d f).2 (Or.inr (Or.inl h))
  · exact fun t d f h =>
      (needs_ocr_analysis_iff t d f).2 (Or.inr (Or.inr (Or.inl h)))
  · exact fun t d f h =>
      (needs_ocr_analysis_iff t d f).2 (Or.inr (Or.inr (Or.inr (Or.inl h))))
  · exact fun t d f h =>
      (needs_ocr_analysis_iff t d f).2 (Or.inr (Or.inr (Or.inr (Or.inr h))))
  · exact ⟨⟨false, 5, 5, 100, 1, 100⟩, 1, ⟨1, ""⟩,
      by norm_num [rule1, rule2, rule3, rule4, rule5]⟩
  · exact ⟨⟨true, 5, 1, 100, 0.2, 100⟩, 1, ⟨1, ""⟩,
      by norm_num [rule1, rule2, rule3, rule4, rule5]⟩
  · exact ⟨⟨true, 5, 5, 100, 1, 100⟩, 0.01, ⟨1, ""⟩,
      by norm_num [rule1, rule2, rule3, rule4, rule5]⟩
  · exact ⟨⟨true, 5, 5, 100, 1, 20⟩, 1, ⟨6, ""⟩,
      by norm_num [rule1, rule2, rule3, rule4, rule5]⟩
  · exact ⟨⟨true, 20, 8, 800, 0.4, 100⟩, 1, ⟨1, ""⟩,
      by norm_num [rule1, rule2, rule3, rule4, rule5]⟩
  · rintro t d f t' d' f' rfl rfl rfl
    rfl

/-- Witness for C5: each sufficiency implication applied at a concrete
input whose rule condition holds, and a determinism instance. -/
theorem needs_ocr_rules_individually_sufficient_witness :
    needs_ocr_analysis
      { has_text_layer := false, total_pages := 5, pages_with_text := 5,
        total_text_length := 100, text_pages_ratio := 1,
        avg_text_per_page := 100 } 1
      { file_size_mb := 1, filename := "" } = true ∧
    needs_ocr_analysis
      { has_text_layer := true, total_pages := 5, pages_with_text := 1,
        total_text_length := 100, text_pages_ratio := 0.2,
        avg_text_per_page := 100 } 1
      { file_size_mb := 1, filename := "" } = true ∧
    needs_ocr_analysis
      { has_text_layer := true, total_pages := 5, pages_with_text := 5,
        total_text_length := 100, text_pages_ratio := 1,
        avg_text_per_page := 100 } 0.01
      { file_size_mb := 1, filename := "" } = true ∧
    needs_ocr_analysis
      { has_text_layer := true, total_pages := 5, pages_with_text := 5,
        total_text_length := 100, text_pages_ratio := 1,
        avg_text_per_page := 20 } 1
      { file_size_mb := 6, filename := "" } = true ∧
    needs_ocr_analysis
      { has_text_layer := true, total_pages := 20, pages_with_text := 8,
        total_text_length := 800, text_pages_ratio := 0.4,
        avg_text_per_page := 100 } 1
      { file_size_mb := 1, filename := "" } = true ∧
    needs_ocr_analysis
      { has_text_layer := true, total_pages := 1, pages_with_text := 1,
        total_text_length := 7, text_pages_ratio := 1,
        avg_text_per_page := 7 } 1
      { file_size_mb := 1, filename := "" } =
    needs_ocr_analysis
      { has_text_layer := true, total_pages := 1, pages_with_text := 1,
        total_text_length := 7, text_pages_ratio := 1,
        avg_text_per_page := 7 } 1
      { file_size_mb := 1, filename := "" } := by
  obtain ⟨s1, s2, s3, s4, s5, -, -, -, -, -, hdet⟩ :=
    needs_ocr_rules_individually_sufficient
  exact ⟨s1 _ _ _ (by norm_num [rule1]), s2 _ _ _ (by norm_num [rule2]),
    s3 _ _ _ (by norm_num [rule3]), s4 _ _ _ (by norm_num [rule4]),
    s5 _ _ _ (by norm_num [rule5]), hdet _ _ _ _ _ _ rfl rfl rfl⟩

/-- C2 (code behaviour at the failing input): for a document whose open
raises, `analyze_pdf_ocr_need` catches the exception and returns `None`,
and the folder loop appends nothing — the batch records no row at all for
the failed document, in particular none with `ocr_required = true`,
`total_pages = 0` and an error message. -/
theorem failed_open_yields_no_row :
    analyze_pdf_ocr_need false ⟨"broken.pdf", 2048, none, none⟩ = none ∧
    analyze_pdf_folder false [⟨"broken.pdf", 2048, none, none⟩] = [] :=
  ⟨rfl, rfl⟩

/-- C3 counterexample: on the concrete document whose second page's
extraction raises, `analyze_pdf_text_layer` aborts and returns no metrics
record at all, instead of aggregating the two pages that extracted. -/
theorem page_failure_aborts_counterexample :
    analyze_pdf_text_layer_run [some "hello", none, some "world"] = none :=
  rfl

/-- C3 amended: if text extraction raises on any page, the whole analysis
fails — the exception propagates out of the unguarded page loop and
`analyze_pdf_text_layer` returns no `TextLayerMetrics` record. -/
theorem page_failure_propagates (pages : List (Option String))
    (h : none ∈ pages) : analyze_pdf_text_layer_run pages = none := by
  rw [analyze_pdf_text_layer_run, extractAllPages_eq_none pages h]
  rfl

/-- Witness for the amended C3: a two-page document whose second page's
extraction raises. -/
theorem page_failure_propagates_witness :
    (none ∈ [some "a", none]) ∧
    analyze_pdf_text_layer_run [some "a", none] = none :=
  ⟨by simp, page_failure_propagates _ (by simp)⟩

/-- C7 counterexample: with a first page whose image processing raises
(density 0.0 for that page) and an all-dark second page (density 1.0), the
estimate is their mean 1/2, not the 0.0 the claim requires whenever any
image-processing step fails. -/
theorem per_page_processing_failure_mean_counterexample :
    analyze_visual_text_density (some [none, some ⟨[[0, 0], [0, 0]]⟩]) = 1/2 ∧
    (1/2 : ℚ) ≠ 0 := by
  have hb : Image.blackPixels ⟨[[0, 0], [0, 0]]⟩ = 4 := by decide
  have hh : Image.height ⟨[[0, 0], [0, 0]]⟩ = 2 := by decide
  have hw : Image.width ⟨[[0, 0], [0, 0]]⟩ = 2 := by decide
  constructor
  · simp [analyze_visual_text_density, calculate_text_density, hb, hh, hw]
  · norm_num

/-- C7 amended: the estimator returns 0.0 when the rasterization call
itself fails or zero pages were rasterized; a per-page image-processing
failure contributes 0.0 for that page only; otherwise it returns the
arithmetic mean of the per-page densities, each clamped into [0,1], so the
estimate always lies in [0,1]. -/
theorem analyze_visual_text_density_spec :
    analyze_visual_text_density none = 0 ∧
    analyze_visual_text_density (some []) = 0 ∧
    (∀ images : List (Option Image), images ≠ [] →
      analyze_visual_text_density (some images) =
        (images.map calculate_text_density).sum / (images.length : ℚ)) ∧
    calculate_text_density none = 0 ∧
    (∀ img : Option Image,
      0 ≤ calculate_text_density img ∧ calculate_text_density img ≤ 1) ∧
    (∀ raster : Option (List (Option Image)),
      0 ≤ analyze_visual_text_density raster ∧
      analyze_visual_text_density raster ≤ 1) := by
  refine ⟨rfl, rfl, ?_, rfl, calculate_text_density_mem_unit, ?_⟩
  · intro images hne
    simp [analyze_visual_text_density, hne]
  · intro raster
    cases raster with
    | none => norm_num [analyze_visual_text_density]
    | some images =>
        rcases eq_or_ne images [] with rfl | hne
        · norm_num [analyze_visual_text_density]
        · have hb := list_sum_le_length_of_le_one
            (images.map calculate_text_density) fun x hx => by
              obtain ⟨img, -, rfl⟩ := List.mem_map.mp hx
              exact calculate_text_density_mem_unit img
          have hlen : (0 : ℚ) < ((images.map calculate_text_density).length : ℚ) := by
            have := List.length_pos.mpr hne
            simp only [List.length_map]
            exact_mod_cast this
          have he : images.isEmpty = false := by
            simp [List.isEmpty_iff, hne]
          have hde : (images.map calculate_text_density).isEmpty = false := by
            simp [List.isEmpty_iff, hne]
          simp only [analyze_visual_text_density, he, hde, Bool.false_eq_true,
            if_false]
          constructor
          · exact div_nonneg hb.1 (le_of_lt (by simpa using hlen))
          · rw [div_le_one (by simpa using hlen)]
            simpa using hb.2

/-- Witness for the amended C7: a single bright one-pixel page, so the
estimate is the mean over one page. -/
theorem analyze_visual_text_density_spec_witness :
    ([some (⟨[[200]]⟩ : Image)] ≠ ([] : List (Option Image))) ∧
    analyze_visual_text_density (some [some ⟨[[200]]⟩]) =
      ([some (⟨[[200]]⟩ : Image)].map calculate_text_density).sum /
        (([some (⟨[[200]]⟩ : Image)] : List (Option Image)).length : ℚ) :=
  ⟨by simp, analyze_visual_text_density_spec.2.2.1 _ (by simp)⟩

/-- C8 counterexample: a batch of two processed documents, the second of
which fails to open, yields a CSV with the header and a single data row —
no row at all for the errored document. -/
theorem csv_omits_errored_document :
    analyze_pdf_folder false
      [⟨"good.pdf", 1048576, some [some "x"], none⟩,
       ⟨"bad.pdf", 2048, none, none⟩] =
      [⟨"good.pdf", true, 1, 0, true, 1, 1, none⟩] ∧
    save_to_csv (analyze_pdf_folder false
      [⟨"good.pdf", 1048576, some [some "x"], none⟩,
       ⟨"bad.pdf", 2048, none, none⟩]) =
      some [fieldnames, csvRow ⟨"good.pdf", true, 1, 0, true, 1, 1, none⟩] := by
  have hfold : analyze_pdf_folder false
      [⟨"good.pdf", 1048576, some [some "x"], none⟩,
       ⟨"bad.pdf", 2048, none, none⟩] =
      [⟨"good.pdf", true, 1, 0, true, 1, 1, none⟩] := by
    rw [analyze_pdf_folder, analyze_pdf_ocr_need_singleton "good.pdf"]
    rfl
  exact ⟨hfold, by rw [hfold]; rfl⟩

/-- C8 amended: the persisted CSV has the fixed header
`filename, has_text_layer, avg_text_density, ocr_required` and one
four-field row per result in the list (no field left blank); an empty
result list writes no CSV at all; and the folder loop produces exactly one
result per document whose analysis returned one — errored documents
contribute no result and hence no row. -/
theorem csv_report_structure :
    (∀ (results : List OcrResult) (rows : List (List CsvCell)),
      save_to_csv results = some rows →
      rows = fieldnames :: results.map csvRow) ∧
    save_to_csv [] = none ∧
    (∀ r : OcrResult, (csvRow r).length = 4) ∧
    (∀ (poppler : Bool) (files : List PdfFile),
      (analyze_pdf_folder poppler files).length =
        files.countP fun f => (analyze_pdf_ocr_need poppler f).isSome) := by
  refine ⟨?_, rfl, fun r => rfl, analyze_pdf_folder_length⟩
  intro results rows h
  by_cases he : results.isEmpty
  · simp [save_to_csv, he] at h
  · simp only [save_to_csv, he, Bool.false_eq_true, if_false,
      Option.some.injEq] at h
    exact h.symm

/-- Witness for the amended C8: a one-result list written to CSV. -/
theorem csv_report_structure_witness :
    save_to_csv [⟨"good.pdf", true, 1, 0, true, 1, 1, none⟩] =
      some [fieldnames, csvRow ⟨"good.pdf", true, 1, 0, true, 1, 1, none⟩] ∧
    [fieldnames, csvRow (⟨"good.pdf", true, 1, 0, true, 1, 1, none⟩ : OcrResult)] =
      fieldnames ::
        [(⟨"good.pdf", true, 1, 0, true, 1, 1, none⟩ : OcrResult)].map csvRow :=
  ⟨rfl, csv_report_structure.1 _ _ rfl⟩

/-- Witness for C10 at a concrete input: densities 0.005 ≤ 0.01, the
verdict at 0.01 is true (rule 3), so the theorem forces it at 0.005 too. -/
theorem needs_ocr_analysis_antitone_in_density_witness :
    ((0.005 : ℚ) ≤ 0.01) ∧
    needs_ocr_analysis
      { has_text_layer := true, total_pages := 5, pages_with_text := 5,
        total_text_length := 100, text_pages_ratio := 1,
        avg_text_per_page := 20 }
      0.01 { file_size_mb := 1, filename := "w.pdf" } = true ∧
    needs_ocr_analysis
      { has_text_layer := true, total_pages := 5, pages_with_text := 5,
        total_text_length := 100, text_pages_ratio := 1,
        avg_text_per_page := 20 }
      0.005 { file_size_mb := 1, filename := "w.pdf" } = true :=
  ⟨by norm_num, by norm_num [needs_ocr_analysis],
    needs_ocr_analysis_antitone_in_density _ _ 0.005 0.01
      (by norm_num) (by norm_num [needs_ocr_analysis])⟩

end PdfOcr
